import Mathlib

/-!
Verification development for the dataset subsystem of CRIS4MIS
(`src/utils/dataset.py`).

The Python source is shallowly embedded over exact rationals:
machine floating-point values become `ℚ`, numpy arrays of pixels become
functions, `torch` tensors of token ids become `List Nat`, and raised
exceptions become `Except.error`.  External collaborators (OpenCV image
codecs and warps, the LMDB store, the byte-pair tokenizer's `encode`,
the albumentations augmentation pipeline) are parameters of the
embedded operations, exactly as the specification treats them
(consumed, not reimplemented).
-/

namespace CRIS4MIS

/-! ## Geometric transform engine (`getTransformMat`, dataset.py lines 195-210 / 373-388)

`cv2.getAffineTransform(src, dst)` solves the unique affine map through
three point pairs; it is embedded by Cramer's rule over `ℚ`. -/

/-- A 2x3 affine matrix `[[a, b, c], [d, e, f]]` mapping
`(x, y) ↦ (a*x + b*y + c, d*x + e*y + f)`, as returned by
`cv2.getAffineTransform`. -/
@[ext]
structure Affine2D where
  a : ℚ
  b : ℚ
  c : ℚ
  d : ℚ
  e : ℚ
  f : ℚ
deriving DecidableEq, Repr

/-- Apply an affine matrix to a point `(x, y)`. -/
def applyAffine (m : Affine2D) (p : ℚ × ℚ) : ℚ × ℚ :=
  (m.a * p.1 + m.b * p.2 + m.c, m.d * p.1 + m.e * p.2 + m.f)

/-- Determinant of a 3x3 matrix given row by row. -/
def det3 (a b c d e f g h i : ℚ) : ℚ :=
  a * (e * i - f * h) - b * (d * i - f * g) + c * (d * h - e * g)

/-- Embedding of `cv2.getAffineTransform`: the unique affine map sending
`p1 ↦ q1`, `p2 ↦ q2`, `p3 ↦ q3`, solved by Cramer's rule (two 3x3
systems sharing the coefficient matrix of the source points). -/
def getAffineTransform (p1 p2 p3 q1 q2 q3 : ℚ × ℚ) : Affine2D :=
  let D := det3 p1.1 p1.2 1 p2.1 p2.2 1 p3.1 p3.2 1
  { a := det3 q1.1 p1.2 1 q2.1 p2.2 1 q3.1 p3.2 1 / D
    b := det3 p1.1 q1.1 1 p2.1 q2.1 1 p3.1 q3.1 1 / D
    c := det3 p1.1 p1.2 q1.1 p2.1 p2.2 q2.1 p3.1 p3.2 q3.1 / D
    d := det3 q1.2 p1.2 1 q2.2 p2.2 1 q3.2 p3.2 1 / D
    e := det3 p1.1 q1.2 1 p2.1 q2.2 1 p3.1 q3.2 1 / D
    f := det3 p1.1 p1.2 q1.2 p2.1 p2.2 q2.2 p3.1 p3.2 q3.2 / D }

/-- Source line 198 / 376: `scale = min(inp_h / ori_h, inp_w / ori_w)`.
`inputSize` is `(inp_h, inp_w)` and `imgSize` is `(ori_h, ori_w)`. -/
def getScale (inputSize imgSize : ℚ × ℚ) : ℚ :=
  min (inputSize.1 / imgSize.1) (inputSize.2 / imgSize.2)

/-- Source line 199 / 377: `new_h, new_w = ori_h * scale, ori_w * scale`
packaged as the pair `(new_h, new_w)`. -/
def getNewSize (inputSize imgSize : ℚ × ℚ) : ℚ × ℚ :=
  (imgSize.1 * getScale inputSize imgSize, imgSize.2 * getScale inputSize imgSize)

/-- Source line 200 / 378:
`bias_x, bias_y = (inp_w - new_w) / 2., (inp_h - new_h) / 2.`
packaged as the pair `(bias_x, bias_y)`. -/
def getBias (inputSize imgSize : ℚ × ℚ) : ℚ × ℚ :=
  ((inputSize.2 - (getNewSize inputSize imgSize).2) / 2,
   (inputSize.1 - (getNewSize inputSize imgSize).1) / 2)

/-- Embedding of `RefDataset.getTransformMat` / `EndoVisDataset.getTransformMat`
(dataset.py lines 195-210 and 373-388; the two method bodies are identical).
Points are `(x, y)` pairs like the numpy `src`/`dst` arrays.  Returns the
forward matrix and, when `inverse` is set, the matrix solved with source
and destination swapped. -/
def getTransformMat (inputSize imgSize : ℚ × ℚ) (inverse : Bool) :
    Affine2D × Option Affine2D :=
  let oriH := imgSize.1
  let oriW := imgSize.2
  let newH := (getNewSize inputSize imgSize).1
  let newW := (getNewSize inputSize imgSize).2
  let biasX := (getBias inputSize imgSize).1
  let biasY := (getBias inputSize imgSize).2
  let src1 : ℚ × ℚ := (0, 0)
  let src2 : ℚ × ℚ := (oriW, 0)
  let src3 : ℚ × ℚ := (0, oriH)
  let dst1 : ℚ × ℚ := (biasX, biasY)
  let dst2 : ℚ × ℚ := (newW + biasX, biasY)
  let dst3 : ℚ × ℚ := (biasX, newH + biasY)
  let mat := getAffineTransform src1 src2 src3 dst1 dst2 dst3
  if inverse then (mat, some (getAffineTransform dst1 dst2 dst3 src1 src2 src3))
  else (mat, none)

/-- The forward solve at the corner configuration used by
`getTransformMat` evaluates to a pure scale-plus-translation matrix. -/
theorem cornerAffine_eq (w h bx bY nw nh : ℚ) (hw : w ≠ 0) (hh : h ≠ 0) :
    getAffineTransform (0, 0) (w, 0) (0, h) (bx, bY) (nw + bx, bY) (bx, nh + bY) =
      { a := nw / w, b := 0, c := bx, d := 0, e := nh / h, f := bY } := by
  have hD : det3 0 0 1 w 0 1 0 h 1 = w * h := by
    unfold det3; ring
  simp only [getAffineTransform]
  rw [hD]
  ext <;> simp only [det3] <;> field_simp <;> ring

/-- The swapped (inverse-direction) solve at the corner configuration
used by `getTransformMat` evaluates to the inverse scale-plus-translation
matrix. -/
theorem cornerAffineInv_eq (w h bx bY nw nh : ℚ) (hnw : nw ≠ 0) (hnh : nh ≠ 0) :
    getAffineTransform (bx, bY) (nw + bx, bY) (bx, nh + bY) (0, 0) (w, 0) (0, h) =
      { a := w / nw, b := 0, c := -(w * bx) / nw,
        d := 0, e := h / nh, f := -(h * bY) / nh } := by
  have hD : det3 bx bY 1 (nw + bx) bY 1 bx (nh + bY) 1 = nw * nh := by
    unfold det3; ring
  simp only [getAffineTransform]
  rw [hD]
  ext <;> simp only [det3] <;> field_simp <;> ring

/-- Unfolding `getTransformMat` with `inverse = true` into its two
`getAffineTransform` calls. -/
theorem getTransformMat_true_eq (inputSize imgSize : ℚ × ℚ) :
    getTransformMat inputSize imgSize true =
      (getAffineTransform (0, 0) (imgSize.2, 0) (0, imgSize.1)
        ((getBias inputSize imgSize).1, (getBias inputSize imgSize).2)
        ((getNewSize inputSize imgSize).2 + (getBias inputSize imgSize).1,
          (getBias inputSize imgSize).2)
        ((getBias inputSize imgSize).1,
          (getNewSize inputSize imgSize).1 + (getBias inputSize imgSize).2),
       some (getAffineTransform
        ((getBias inputSize imgSize).1, (getBias inputSize imgSize).2)
        ((getNewSize inputSize imgSize).2 + (getBias inputSize imgSize).1,
          (getBias inputSize imgSize).2)
        ((getBias inputSize imgSize).1,
          (getNewSize inputSize imgSize).1 + (getBias inputSize imgSize).2)
        (0, 0) (imgSize.2, 0) (0, imgSize.1))) := by
  simp [getTransformMat]

/-- With positive original dimensions and target size, the scale factor
`min(S/H, S/W)` is positive. -/
theorem getScale_pos (H W S : ℚ) (hH : 0 < H) (hW : 0 < W) (hS : 0 < S) :
    0 < getScale (S, S) (H, W) :=
  lt_min (div_pos hS hH) (div_pos hS hW)

/-- C1: for every positive original height `H`, width `W` and target size
`S`, the inverse matrix returned by `getTransformMat` composed with the
forward matrix is the identity on the original coordinate frame (exact
over `ℚ`, hence within floating-point tolerance in the source); in
particular it reproduces the four original corner points
`(0,0), (W,0), (0,H), (W,H)`, each being an instance of the point `p`. -/
theorem getTransformMat_inverse_roundtrip (H W S : ℚ)
    (hH : 0 < H) (hW : 0 < W) (hS : 0 < S) (p : ℚ × ℚ) :
    ((getTransformMat (S, S) (H, W) true).2).map
        (fun minv => applyAffine minv
          (applyAffine (getTransformMat (S, S) (H, W) true).1 p)) = some p := by
  have hsc : 0 < getScale (S, S) (H, W) := getScale_pos H W S hH hW hS
  have hnh : (getNewSize (S, S) (H, W)).1 ≠ 0 := by
    have : 0 < H * getScale (S, S) (H, W) := mul_pos hH hsc
    simpa [getNewSize] using this.ne'
  have hnw : (getNewSize (S, S) (H, W)).2 ≠ 0 := by
    have : 0 < W * getScale (S, S) (H, W) := mul_pos hW hsc
    simpa [getNewSize] using this.ne'
  rw [getTransformMat_true_eq]
  rw [cornerAffine_eq W H (getBias (S, S) (H, W)).1 (getBias (S, S) (H, W)).2
        (getNewSize (S, S) (H, W)).2 (getNewSize (S, S) (H, W)).1 hW.ne' hH.ne',
      cornerAffineInv_eq W H (getBias (S, S) (H, W)).1 (getBias (S, S) (H, W)).2
        (getNewSize (S, S) (H, W)).2 (getNewSize (S, S) (H, W)).1 hnw hnh]
  simp only [Option.map_some', applyAffine, Option.some.injEq]
  obtain ⟨x, y⟩ := p
  simp only [Prod.mk.injEq]
  constructor <;> field_simp <;> ring

/-- C1 witness: the roundtrip at `H = 100`, `W = 200`, `S = 50` on the
corner point `(W, H) = (200, 100)`. -/
theorem getTransformMat_inverse_roundtrip_witness :
    ((getTransformMat ((50 : ℚ), 50) ((100 : ℚ), 200) true).2).map
        (fun minv => applyAffine minv
          (applyAffine (getTransformMat ((50 : ℚ), 50) ((100 : ℚ), 200) true).1
            (200, 100))) = some (200, 100) :=
  getTransformMat_inverse_roundtrip 100 200 50 (by norm_num) (by norm_num)
    (by norm_num) (200, 100)

/-- C2: for every positive `(H, W)` and target size `S`, the forward
matrix built by `getTransformMat` sends the corners `(0,0)`, `(W,0)`,
`(0,H)` to `(bias_x, bias_y)`, `(new_w + bias_x, bias_y)`,
`(bias_x, new_h + bias_y)` where `scale = min(S/H, S/W)`,
`(new_h, new_w) = (H, W) * scale`, `bias = ((S-new_w)/2, (S-new_h)/2)`;
it is the unique affine map doing so; and the concrete 100x200 image with
target size 50 yields `scale = 0.25`, `(new_h, new_w) = (25, 50)` and
`(bias_x, bias_y) = (0, 12.5)`. -/
theorem getTransformMat_forward_spec (H W S : ℚ)
    (hH : 0 < H) (hW : 0 < W) (hS : 0 < S) :
    applyAffine (getTransformMat (S, S) (H, W) true).1 (0, 0) =
        ((getBias (S, S) (H, W)).1, (getBias (S, S) (H, W)).2) ∧
    applyAffine (getTransformMat (S, S) (H, W) true).1 (W, 0) =
        ((getNewSize (S, S) (H, W)).2 + (getBias (S, S) (H, W)).1,
          (getBias (S, S) (H, W)).2) ∧
    applyAffine (getTransformMat (S, S) (H, W) true).1 (0, H) =
        ((getBias (S, S) (H, W)).1,
          (getNewSize (S, S) (H, W)).1 + (getBias (S, S) (H, W)).2) ∧
    (∀ g : Affine2D,
      applyAffine g (0, 0) =
          ((getBias (S, S) (H, W)).1, (getBias (S, S) (H, W)).2) →
      applyAffine g (W, 0) =
          ((getNewSize (S, S) (H, W)).2 + (getBias (S, S) (H, W)).1,
            (getBias (S, S) (H, W)).2) →
      applyAffine g (0, H) =
          ((getBias (S, S) (H, W)).1,
            (getNewSize (S, S) (H, W)).1 + (getBias (S, S) (H, W)).2) →
      g = (getTransformMat (S, S) (H, W) true).1) ∧
    getScale (50, 50) (100, 200) = 0.25 ∧
    getNewSize (50, 50) (100, 200) = (25, 50) ∧
    getBias (50, 50) (100, 200) = (0, 12.5) := by
  have hmat : (getTransformMat (S, S) (H, W) true).1 =
      { a := (getNewSize (S, S) (H, W)).2 / W, b := 0,
        c := (getBias (S, S) (H, W)).1, d := 0,
        e := (getNewSize (S, S) (H, W)).1 / H,
        f := (getBias (S, S) (H, W)).2 } := by
    rw [getTransformMat_true_eq]
    exact cornerAffine_eq W H (getBias (S, S) (H, W)).1 (getBias (S, S) (H, W)).2
      (getNewSize (S, S) (H, W)).2 (getNewSize (S, S) (H, W)).1 hW.ne' hH.ne'
  refine ⟨?_, ?_, ?_, ?_, ?_, ?_, ?_⟩
  · rw [hmat]; simp [applyAffine]
  · rw [hmat]; simp only [applyAffine]; rw [Prod.mk.injEq]
    constructor <;> field_simp
  · rw [hmat]; simp only [applyAffine]; rw [Prod.mk.injEq]
    constructor <;> field_simp
  · intro g h1 h2 h3
    rw [hmat]
    simp only [applyAffine, Prod.mk.injEq] at h1 h2 h3
    obtain ⟨h1x, h1y⟩ := h1
    obtain ⟨h2x, h2y⟩ := h2
    obtain ⟨h3x, h3y⟩ := h3
    ext
    · field_simp
      nlinarith [h1x, h2x]
    · field_simp
      nlinarith [h1x, h3x]
    · linarith [h1x]
    · field_simp
      nlinarith [h1y, h2y]
    · field_simp
      nlinarith [h1y, h3y]
    · linarith [h1y]
  · norm_num [getScale, min_def]
  · norm_num [getNewSize, getScale, min_def, Prod.ext_iff]
  · norm_num [getBias, getNewSize, getScale, min_def, Prod.ext_iff]

/-- C2 witness: the corner-mapping specification instantiated at
`H = 100`, `W = 200`, `S = 50`, where the matrix maps `(0, 0)` to the
bias `(0, 12.5)`. -/
theorem getTransformMat_forward_spec_witness :
    applyAffine (getTransformMat ((50 : ℚ), 50) ((100 : ℚ), 200) true).1 (0, 0) =
      ((getBias ((50 : ℚ), 50) ((100 : ℚ), 200)).1,
        (getBias ((50 : ℚ), 50) ((100 : ℚ), 200)).2) :=
  (getTransformMat_forward_spec 100 200 50 (by norm_num) (by norm_num)
    (by norm_num)).1

/-! ## Tokenizer adapter (`tokenize`, dataset.py lines 45-86)

The external byte-pair tokenizer is consumed through its
`encode : text -> list of integer ids` function and the two special-token
ids `sot = encoder["<|startoftext|>"]` and `eot = encoder["<|endoftext|>"]`;
they are parameters of the embedding.  A raised `RuntimeError` or
`IndexError` becomes `Except.error`. -/

/-- Left-pack a token row into the zero-initialised tensor row of length
`contextLength` (line 73 `torch.zeros` and line 84
`result[i, :len(tokens)] = torch.tensor(tokens)`). -/
def padRow (row : List Nat) (contextLength : Nat) : List Nat :=
  row ++ List.replicate (contextLength - row.length) 0

/-- Truncation of an over-long token list (lines 78-79):
`tokens = tokens[:context_length]` followed by `tokens[-1] = eot_token`,
i.e. keep the first `contextLength` tokens and overwrite the last kept
one with the end token. -/
def truncRow (tokens : List Nat) (eot contextLength : Nat) : List Nat :=
  (tokens.take contextLength).take ((tokens.take contextLength).length - 1)
    ++ [eot]

/-- Tokenization of one text (one row of the result tensor): build
`[sot] + encode(text) + [eot]` (line 71); if that exceeds `contextLength`
either truncate (lines 78-79; the Python `tokens[-1] = eot` raises
`IndexError` when `context_length = 0` leaves the kept list empty) or
raise the length error of lines 81-83; finally left-pack into the
zero-initialised row (line 84). -/
def tokenizeOne (encode : String → List Nat) (sot eot : Nat)
    (contextLength : Nat) (truncate : Bool) (text : String) :
    Except String (List Nat) :=
  let tokens := [sot] ++ encode text ++ [eot]
  if tokens.length > contextLength then
    if truncate then
      if contextLength = 0 then
        .error "IndexError: list assignment index out of range"
      else
        .ok (padRow (truncRow tokens eot contextLength) contextLength)
    else
      .error ("Input " ++ text ++ " is too long for context length "
        ++ toString contextLength)
  else
    .ok (padRow tokens contextLength)

/-- Embedding of `tokenize` (dataset.py lines 45-86) on an already-listed
input (a `str` argument is wrapped as the singleton list, line 66-67):
each text yields one row, and the first offending text raises. -/
def tokenize (encode : String → List Nat) (sot eot : Nat)
    (texts : List String) (contextLength : Nat) (truncate : Bool) :
    Except String (List (List Nat)) :=
  match texts with
  | [] => .ok []
  | t :: ts =>
    match tokenizeOne encode sot eot contextLength truncate t with
    | .error e => .error e
    | .ok row =>
      match tokenize encode sot eot ts contextLength truncate with
      | .error e => .error e
      | .ok rows => .ok (row :: rows)

/-- C3: for every text whose encoded token count plus the two special
tokens exceeds `L > 0`, `tokenize` with `truncate = true` returns a
single row of exactly length `L` whose entry at position `L - 1` is the
end-of-text token. -/
theorem tokenize_truncate_spec (encode : String → List Nat) (sot eot : Nat)
    (text : String) (L : Nat) (hL : 0 < L)
    (hlong : (encode text).length + 2 > L) :
    ∃ row, tokenize encode sot eot [text] L true = .ok [row] ∧
      row.length = L ∧ row[L - 1]? = some eot := by
  have hgt : ([sot] ++ encode text ++ [eot]).length > L := by
    simp only [List.length_append, List.length_singleton]
    omega
  have hone : tokenizeOne encode sot eot L true text =
      .ok (padRow (truncRow ([sot] ++ encode text ++ [eot]) eot L) L) := by
    simp only [tokenizeOne]
    rw [if_pos hgt]
    simp only [if_true]
    rw [if_neg (by omega : ¬ L = 0)]
  have htlen : (truncRow ([sot] ++ encode text ++ [eot]) eot L).length = L := by
    simp only [truncRow, List.length_append, List.length_take,
      List.length_singleton]
    omega
  have hplen : (padRow (truncRow ([sot] ++ encode text ++ [eot]) eot L) L).length
      = L := by
    simp only [padRow, List.length_append, List.length_replicate]
    omega
  have hpad : padRow (truncRow ([sot] ++ encode text ++ [eot]) eot L) L =
      truncRow ([sot] ++ encode text ++ [eot]) eot L := by
    simp only [padRow, htlen, Nat.sub_self, List.replicate_zero, List.append_nil]
  have hget : (truncRow ([sot] ++ encode text ++ [eot]) eot L)[L - 1]? =
      some eot := by
    have hpre : ((([sot] ++ encode text ++ [eot]).take L).take
        ((([sot] ++ encode text ++ [eot]).take L).length - 1)).length = L - 1 := by
      simp only [List.length_take]
      omega
    simp only [truncRow]
    rw [List.getElem?_append_right (by omega)]
    rw [hpre]
    simp [Nat.sub_self]
  refine ⟨padRow (truncRow ([sot] ++ encode text ++ [eot]) eot L) L,
    ?_, hplen, ?_⟩
  · simp only [tokenize, hone]
  · rw [hpad]
    exact hget

/-- C3 witness: a three-id encoding truncated to context length 4 ends in
the end token `49407` at position 3. -/
theorem tokenize_truncate_spec_witness :
    ∃ row, tokenize (fun _ => [10, 11, 12]) 49406 49407 ["surgical tool"] 4 true =
        .ok [row] ∧ row.length = 4 ∧ row[3]? = some 49407 := by
  have h := tokenize_truncate_spec (fun _ => [10, 11, 12]) 49406 49407
    "surgical tool" 4 (by decide) (by decide)
  simpa using h

/-- C4: with `truncate = false`, a text whose encoded token count plus the
two special tokens exceeds `L` makes `tokenize` fail with the error
message naming the offending text and the limit (never an `ok`, i.e. no
silent truncation), while a text that fits yields a single row of length
exactly `L` without error. -/
theorem tokenize_no_truncate_spec (encode : String → List Nat) (sot eot : Nat)
    (text : String) (L : Nat) :
    ((encode text).length + 2 > L →
      tokenize encode sot eot [text] L false =
        .error ("Input " ++ text ++ " is too long for context length "
          ++ toString L)) ∧
    ((encode text).length + 2 ≤ L →
      ∃ row, tokenize encode sot eot [text] L false = .ok [row] ∧
        row.length = L) := by
  constructor
  · intro hlong
    have hgt : ([sot] ++ encode text ++ [eot]).length > L := by
      simp only [List.length_append, List.length_singleton]
      omega
    have hone : tokenizeOne encode sot eot L false text =
        .error ("Input " ++ text ++ " is too long for context length "
          ++ toString L) := by
      simp only [tokenizeOne]
      rw [if_pos hgt]
      simp
    simp only [tokenize, hone]
  · intro hfit
    have hle : ¬ ([sot] ++ encode text ++ [eot]).length > L := by
      simp only [List.length_append, List.length_singleton]
      omega
    have hone : tokenizeOne encode sot eot L false text =
        .ok (padRow ([sot] ++ encode text ++ [eot]) L) := by
      simp only [tokenizeOne]
      rw [if_neg hle]
    refine ⟨padRow ([sot] ++ encode text ++ [eot]) L, ?_, ?_⟩
    · simp only [tokenize, hone]
    · simp only [padRow, List.length_append, List.length_replicate,
        List.length_singleton]
      omega

/-- C4 witness: with context length 4 and no truncation, a five-token
sentence raises the descriptive length error, and a two-token sentence
yields a row of length exactly 4. -/
theorem tokenize_no_truncate_spec_witness :
    tokenize (fun _ => [10, 11, 12]) 49406 49407 ["surgical tool"] 4 false =
      .error ("Input " ++ "surgical tool" ++ " is too long for context length "
        ++ toString 4) ∧
    ∃ row, tokenize (fun _ => [10, 11]) 49406 49407 ["needle"] 4 false =
      .ok [row] ∧ row.length = 4 := by
  constructor
  · exact (tokenize_no_truncate_spec (fun _ => [10, 11, 12]) 49406 49407
      "surgical tool" 4).1 (by decide)
  · exact (tokenize_no_truncate_spec (fun _ => [10, 11]) 49406 49407
      "needle" 4).2 (by decide)

/-! ## Sample-tensor converter (`convert`, dataset.py lines 212-223 / 390-401)

Pixel values are embedded as exact rationals, so the
`uint8 -> float32` cast of the source is the identity on the carried
value.  The per-channel mean/std are the CLIP constants of lines
108-111 / 270-273. -/

/-- Per-channel mean `[0.48145466, 0.4578275, 0.40821073]` (reshaped to
`(3,1,1)` in the source, i.e. broadcast per channel). -/
def clipMean (c : Fin 3) : ℚ :=
  if c = 0 then 0.48145466 else if c = 1 then 0.4578275 else 0.40821073

/-- Per-channel std `[0.26862954, 0.26130258, 0.27577711]`. -/
def clipStd (c : Fin 3) : ℚ :=
  if c = 0 then 0.26862954 else if c = 1 then 0.26130258 else 0.27577711

/-- Embedding of `RefDataset.convert` / `EndoVisDataset.convert`
(dataset.py lines 212-223 and 390-401, identical bodies).  The image
array `img[y][x][c]` is transposed to channel-first by
`img.transpose((2, 0, 1))`, cast to float (identity here), then mutated
in place by `div_(255.)`, `sub_(mean)`, `div_(std)` in that order; the
optional mask is only cast to float, with no rescaling.  The sequential
`let` bindings mirror the source's statement order. -/
def convert {H W : Nat} (img : Fin H → Fin W → Fin 3 → ℚ)
    (mask : Option (Fin H → Fin W → ℚ) := none) :
    (Fin 3 → Fin H → Fin W → ℚ) × Option (Fin H → Fin W → ℚ) :=
  let t0 : Fin 3 → Fin H → Fin W → ℚ := fun c y x => img y x c
  let t1 : Fin 3 → Fin H → Fin W → ℚ := fun c y x => t0 c y x / 255
  let t2 : Fin 3 → Fin H → Fin W → ℚ := fun c y x => t1 c y x - clipMean c
  let t3 : Fin 3 → Fin H → Fin W → ℚ := fun c y x => t2 c y x / clipStd c
  (t3, mask)

/-- C5: `convert` maps pixel `img[y][x][c]` to output channel-first
position `(c, y, x)` with value `((v / 255) - mean_c) / std_c` —
transpose, float cast, division by 255, mean subtraction, then std
division, in exactly that order — and returns a present mask unchanged
(float cast only, no rescaling) and an absent mask as absent. -/
theorem convert_spec {H W : Nat} (img : Fin H → Fin W → Fin 3 → ℚ)
    (mask : Fin H → Fin W → ℚ) (c : Fin 3) (y : Fin H) (x : Fin W) :
    (convert img (some mask)).1 c y x =
        (img y x c / 255 - clipMean c) / clipStd c ∧
    (convert img (some mask)).2 = some mask ∧
    (convert img).2 = none := by
  refine ⟨rfl, rfl, rfl⟩

/-! ## External collaborators of the dataset classes

Decoded pixel buffers, decoded images/masks and converted tensors are
abstract types `B`, `I`, `M`, `T`, `U`; the OpenCV codec/warp calls, the
`convert` stage applied to them, the albumentations pipeline and the
byte-pair tokenizer are functions bundled in `Ext`, exactly the contract
the specification assigns to the excluded collaborators. -/

/-- External operations consumed by `__getitem__` of both dataset
classes.  `B` is the type of encoded pixel buffers, `I` of decoded
colour images, `M` of decoded grayscale masks, `T` of converted image
tensors and `U` of converted mask tensors. -/
structure Ext (B I M T U : Type) where
  /-- `cv2.imdecode(np.frombuffer(..), cv2.IMREAD_COLOR)` (line 138). -/
  imdecodeColor : B → I
  /-- `cv2.imdecode(np.frombuffer(..), cv2.IMREAD_GRAYSCALE)` (line 158). -/
  imdecodeGray : B → M
  /-- `cv2.imread(path)` (line 308). -/
  imreadColor : String → I
  /-- `cv2.imread(path, cv2.IMREAD_GRAYSCALE)` (line 332). -/
  imreadGray : String → M
  /-- `cv2.cvtColor(ori_img, cv2.COLOR_BGR2RGB)` (lines 140, 309). -/
  cvtColorBGR2RGB : I → I
  /-- `img.shape[:2]`, the original `(h, w)` (lines 141, 310). -/
  shape2 : I → ℚ × ℚ
  /-- `cv2.warpAffine(img, mat, input_size, flags=INTER_CUBIC,
  borderValue=mean*255)` (lines 150-155, 324-329). -/
  warpAffineCubicMean : I → Affine2D → ℚ × ℚ → I
  /-- `cv2.warpAffine(mask, mat, input_size, flags=INTER_LINEAR,
  borderValue=0.)` (lines 160-164, 333-337). -/
  warpAffineLinearZero : M → Affine2D → ℚ × ℚ → M
  /-- `mask = mask / 255.` on the decoded mask array (lines 165, 338). -/
  maskDiv255 : M → M
  /-- The image half of `self.convert` applied to the warped image
  (the concrete pixel-level `convert` is embedded separately above). -/
  convertImg : I → T
  /-- The mask half of `self.convert`. -/
  convertMask : M → U
  /-- The albumentations pipeline `self.transform(image=img, mask=mask)`
  (lines 340-343), returning the transformed image/mask pair. -/
  aug : I → M → I × M
  /-- `_tokenizer.encode` of the external byte-pair tokenizer. -/
  encode : String → List Nat
  /-- `_tokenizer.encoder["<|startoftext|>"]`. -/
  sotToken : Nat
  /-- `_tokenizer.encoder["<|endoftext|>"]`. -/
  eotToken : Nat

/-- `os.path.join` on a root and a relative component. -/
def pathJoin (a b : String) : String := a ++ "/" ++ b

/-- Oracle embedding of the external `np.random.choice(n)` (lines 146 and
315): the uniform draw from `[0, n)` is supplied by the caller as `draw`;
call sites quantify over all draws `< n`. -/
def npRandomChoice (n draw : Nat) : Nat := draw

/-! ## Mode-dependent output packaging (the three `return` statements) -/

/-- The `params` dict of the `val` branch (lines 176-180, 354-358). -/
structure ValParams where
  mask_path : String
  inverse : Option Affine2D
  ori_size : ℚ × ℚ

/-- The `params` dict of the test branch (lines 185-192, 363-370). -/
structure TestParams (I : Type) where
  ori_img : I
  seg_id : Int
  mask_path : String
  inverse : Option Affine2D
  ori_size : ℚ × ℚ
  sents : List String

/-- The value returned by `__getitem__`: `(img, word_vec, mask)` in train
mode, `(img, word_vec, params)` in val mode, `(img, params)` otherwise. -/
inductive ItemOut (I T U : Type) where
  | train (img : T) (word_vec : List Nat) (mask : U)
  | val (img : T) (word_vec : List Nat) (params : ValParams)
  | test (img : T) (params : TestParams I)

/-! ## Store-backed dataset (`RefDataset`, dataset.py lines 97-238) -/

/-- One deserialised LMDB record (`loads_pyarrow(byteflow)`), with fields
`img`, `mask`, `seg_id`, `num_sents`, `sents`. -/
structure RefRecord (B : Type) where
  img : B
  mask : B
  seg_id : Int
  num_sents : Nat
  sents : List String

/-- The external LMDB store at a directory, as consumed by the dataset:
the two reserved entries `__len__` and `__keys__` (already deserialised)
and the record lookup `txn.get(key)` followed by `loads_pyarrow`. -/
structure LMDBStore (K B : Type) where
  lenEntry : Nat
  keysEntry : List K
  getRecord : K → Option (RefRecord B)

/-- The mutable attributes of a `RefDataset` object (lines 98-113):
`env` is `None` until `_init_db` runs; `keys` does not exist until then
(modelled as `Option`). -/
structure RefDatasetState (K B : Type) where
  lmdb_dir : String
  mask_dir : String
  dataset : String
  split : String
  mode : String
  input_size : ℚ × ℚ
  word_length : Nat
  length : Nat
  env : Option (LMDBStore K B)
  keys : Option (List K)

/-- The static corpus-size table `info` (dataset.py lines 15-41);
a missing dataset or split is a Python `KeyError`, hence `none`. -/
def info (dataset split : String) : Option Nat :=
  if dataset = "refcoco" then
    if split = "train" then some 42404
    else if split = "val" then some 3811
    else if split = "val-test" then some 3811
    else if split = "testA" then some 1975
    else if split = "testB" then some 1810
    else none
  else if dataset = "refcoco+" then
    if split = "train" then some 42278
    else if split = "val" then some 3805
    else if split = "val-test" then some 3805
    else if split = "testA" then some 1975
    else if split = "testB" then some 1798
    else none
  else if dataset = "refcocog_u" then
    if split = "train" then some 42226
    else if split = "val" then some 2573
    else if split = "val-test" then some 2573
    else if split = "test" then some 5023
    else none
  else if dataset = "refcocog_g" then
    if split = "train" then some 44822
    else if split = "val" then some 5000
    else if split = "val-test" then some 5000
    else none
  else none

/-- `RefDataset.__init__` (lines 98-113): static configuration,
`length = info[dataset][split]`, `env = None`, and no `keys` attribute. -/
def refDatasetInit {K B : Type} (lmdb_dir mask_dir dataset split mode : String)
    (input_size : ℚ) (word_length : Nat) :
    Except String (RefDatasetState K B) :=
  match info dataset split with
  | none => .error "KeyError"
  | some n =>
    .ok { lmdb_dir := lmdb_dir, mask_dir := mask_dir, dataset := dataset,
          split := split, mode := mode,
          input_size := (input_size, input_size),
          word_length := word_length, length := n, env := none, keys := none }

/-- `RefDataset._init_db` (lines 115-124): open the store at `lmdb_dir`
(the filesystem is the function `world`) and overwrite `length` and
`keys` from the reserved `__len__` and `__keys__` entries. -/
def initDB {K B : Type} (world : String → LMDBStore K B)
    (s : RefDatasetState K B) : RefDatasetState K B :=
  let store := world s.lmdb_dir
  { s with env := some store, length := store.lenEntry,
           keys := some store.keysEntry }

/-- The record-processing part of `RefDataset.__getitem__` after
`ref = loads_pyarrow(byteflow)` (lines 137-193).  `np.random.choice`
is the oracle `draw`.  The `let mats / mats.1 / mats.2` bindings spell
out the tuple destructuring of line 149. -/
def refProcess {B I M T U : Type} (ext : Ext B I M T U) (mode : String)
    (input_size : ℚ × ℚ) (word_length : Nat) (mask_dir : String)
    (ref : RefRecord B) (draw : Nat) : Except String (ItemOut I T U) :=
  let ori_img := ext.imdecodeColor ref.img
  let img := ext.cvtColorBGR2RGB ori_img
  let img_size := ext.shape2 img
  let mask_path := pathJoin mask_dir (toString ref.seg_id ++ ".png")
  let idx := npRandomChoice ref.num_sents draw
  let sents := ref.sents
  let mats := getTransformMat input_size img_size true
  let mat := mats.1
  let mat_inv := mats.2
  let img := ext.warpAffineCubicMean img mat input_size
  if mode = "train" then
    let mask := ext.imdecodeGray ref.mask
    let mask := ext.warpAffineLinearZero mask mat input_size
    let mask := ext.maskDiv255 mask
    match sents[idx]? with
    | none => .error "IndexError: list index out of range"
    | some sent =>
      match tokenizeOne ext.encode ext.sotToken ext.eotToken word_length
          true sent with
      | .error e => .error e
      | .ok word_vec =>
        .ok (.train (ext.convertImg img) word_vec (ext.convertMask mask))
  else if mode = "val" then
    match sents[0]? with
    | none => .error "IndexError: list index out of range"
    | some sent =>
      match tokenizeOne ext.encode ext.sotToken ext.eotToken word_length
          true sent with
      | .error e => .error e
      | .ok word_vec =>
        .ok (.val (ext.convertImg img) word_vec
          { mask_path := mask_path, inverse := mat_inv, ori_size := img_size })
  else
    .ok (.test (ext.convertImg img)
      { ori_img := ori_img, seg_id := ref.seg_id, mask_path := mask_path,
        inverse := mat_inv, ori_size := img_size, sents := sents })

/-- `RefDataset.__getitem__` (lines 129-193) as a state transformer:
if `env` is `None` run `_init_db` first (line 131), then fetch
`keys[index]` from the store and process the record.  All branches
return the (possibly initialised) state unchanged thereafter. -/
def refGetItem {K B I M T U : Type} (ext : Ext B I M T U)
    (world : String → LMDBStore K B) (s : RefDatasetState K B)
    (index draw : Nat) :
    RefDatasetState K B × Except String (ItemOut I T U) :=
  let s := if s.env.isNone then initDB world s else s
  (s, match s.keys with
      | none => .error "AttributeError: keys"
      | some keys =>
        match keys[index]? with
        | none => .error "IndexError: list index out of range"
        | some key =>
          match s.env with
          | none => .error "store not open"
          | some store =>
            match store.getRecord key with
            | none => .error "TypeError: a bytes-like object is required"
            | some ref =>
              refProcess ext s.mode s.input_size s.word_length s.mask_dir
                ref draw)

/-! ## Manifest-backed dataset (`EndoVisDataset`, dataset.py lines 241-401) -/

/-- One manifest entry (`data_file` JSON element, docstring lines 245-251). -/
structure EndoRecord where
  img_path : String
  mask_path : String
  num_sents : Nat
  sents : List String

/-- The configuration of an `EndoVisDataset` object (lines 253-300);
`data` is the parsed JSON manifest (`json.load`, an external read,
supplied already parsed). -/
structure EndoDataset where
  data_root : String
  data_file : String
  data : List EndoRecord
  mode : String
  input_size : ℚ × ℚ
  word_length : Nat
  sents_select_type : String
  use_vis_aug : Bool

/-- `EndoVisDataset.__init__` (lines 253-269). -/
def endoDatasetInit (data_root data_file : String)
    (manifest : List EndoRecord) (mode : String) (input_size : ℚ)
    (word_length : Nat) (sents_select_type : String) (use_vis_aug : Bool) :
    EndoDataset :=
  { data_root := data_root, data_file := data_file, data := manifest,
    mode := mode, input_size := (input_size, input_size),
    word_length := word_length, sents_select_type := sents_select_type,
    use_vis_aug := use_vis_aug }

/-- Sentence selection of `EndoVisDataset.__getitem__` (lines 313-320):
`random` uses `np.random.choice(num_sents)` (the oracle `draw`), `first`
uses index 0, anything else hits `assert False` with the formatted
message — an `AssertionError` at access time. -/
def selectSentIdx (ty : String) (numSents draw : Nat) : Except String Nat :=
  if ty = "random" then .ok (npRandomChoice numSents draw)
  else if ty = "first" then .ok 0
  else .error ("Not support sents_select_type: " ++ ty)

/-- `EndoVisDataset.__getitem__` (lines 305-371): like the store-backed
version but reading files from disk, with the configurable sentence
selection (which runs before the mode branch, line 313) and, in train
mode with `use_vis_aug`, the augmentation applied to the warped pair
(lines 340-343). -/
def endoGetItem {B I M T U : Type} (ext : Ext B I M T U) (ds : EndoDataset)
    (index draw : Nat) : Except String (ItemOut I T U) :=
  match ds.data[index]? with
  | none => .error "IndexError: list index out of range"
  | some ref =>
    let ori_img := ext.imreadColor (pathJoin ds.data_root ref.img_path)
    let img := ext.cvtColorBGR2RGB ori_img
    let img_size := ext.shape2 img
    let mask_path := pathJoin ds.data_root ref.mask_path
    match selectSentIdx ds.sents_select_type ref.num_sents draw with
    | .error e => .error e
    | .ok idx =>
      let sents := ref.sents
      let mats := getTransformMat ds.input_size img_size true
      let mat := mats.1
      let mat_inv := mats.2
      let img := ext.warpAffineCubicMean img mat ds.input_size
      if ds.mode = "train" then
        let mask := ext.imreadGray mask_path
        let mask := ext.warpAffineLinearZero mask mat ds.input_size
        let mask := ext.maskDiv255 mask
        let im := if ds.use_vis_aug then ext.aug img mask else (img, mask)
        let img := im.1
        let mask := im.2
        match sents[idx]? with
        | none => .error "IndexError: list index out of range"
        | some sent =>
          match tokenizeOne ext.encode ext.sotToken ext.eotToken
              ds.word_length true sent with
          | .error e => .error e
          | .ok word_vec =>
            .ok (.train (ext.convertImg img) word_vec (ext.convertMask mask))
      else if ds.mode = "val" then
        match sents[0]? with
        | none => .error "IndexError: list index out of range"
        | some sent =>
          match tokenizeOne ext.encode ext.sotToken ext.eotToken
              ds.word_length true sent with
          | .error e => .error e
          | .ok word_vec =>
            .ok (.val (ext.convertImg img) word_vec
              { mask_path := mask_path, inverse := mat_inv,
                ori_size := img_size })
      else
        .ok (.test (ext.convertImg img)
          { ori_img := ori_img, seg_id := 0, mask_path := mask_path,
            inverse := mat_inv, ori_size := img_size, sents := sents })

/-! ## Claims about the store-backed dataset -/

/-- C7: the store handle is `None` after construction (with `length` the
static `info` table lookup and no key list), is opened lazily on the
first `__getitem__` call — which overwrites `length` and the key list
from the reserved `__len__`/`__keys__` store entries — and every later
`__getitem__` (a call finding the handle present) leaves handle, length
and keys (indeed the whole state) unchanged. -/
theorem refDataset_lazy_init {K B I M T U : Type} :
    (∀ (lmdb_dir mask_dir dataset split mode : String) (input_size : ℚ)
        (word_length n : Nat), info dataset split = some n →
      ∃ s : RefDatasetState K B,
        refDatasetInit lmdb_dir mask_dir dataset split mode input_size
            word_length = .ok s ∧
          s.env = none ∧ s.keys = none ∧ s.length = n) ∧
    (∀ (ext : Ext B I M T U) (world : String → LMDBStore K B)
        (s : RefDatasetState K B) (index draw : Nat), s.env = none →
      (refGetItem ext world s index draw).1.env = some (world s.lmdb_dir) ∧
      (refGetItem ext world s index draw).1.length
          = (world s.lmdb_dir).lenEntry ∧
      (refGetItem ext world s index draw).1.keys
          = some (world s.lmdb_dir).keysEntry) ∧
    (∀ (ext : Ext B I M T U) (world : String → LMDBStore K B)
        (s : RefDatasetState K B) (index draw : Nat) (store : LMDBStore K B),
      s.env = some store → (refGetItem ext world s index draw).1 = s) := by
  refine ⟨?_, ?_, ?_⟩
  · intro lmdb_dir mask_dir dataset split mode input_size word_length n hinfo
    refine ⟨{ lmdb_dir := lmdb_dir
              mask_dir := mask_dir
              dataset := dataset
              split := split
              mode := mode
              input_size := (input_size, input_size)
              word_length := word_length
              length := n
              env := none
              keys := none },
      ?_, rfl, rfl, rfl⟩
    simp only [refDatasetInit, hinfo]
  · intro ext world s index draw henv
    have h1 : (refGetItem ext world s index draw).1 = initDB world s := by
      simp [refGetItem, henv]
    rw [h1]
    exact ⟨rfl, rfl, rfl⟩
  · intro ext world s index draw store henv
    have : s.env.isNone = false := by rw [henv]; rfl
    simp [refGetItem, this]

/-- Concrete external-operation bundle over unit types, used to witness
the dataset theorems on explicit inputs. -/
def extU : Ext Unit Unit Unit Unit Unit :=
  { imdecodeColor := fun _ => (), imdecodeGray := fun _ => (),
    imreadColor := fun _ => (), imreadGray := fun _ => (),
    cvtColorBGR2RGB := fun i => i, shape2 := fun _ => (100, 200),
    warpAffineCubicMean := fun i _ _ => i,
    warpAffineLinearZero := fun m _ _ => m,
    maskDiv255 := fun m => m, convertImg := fun _ => (),
    convertMask := fun _ => (), aug := fun i m => (i, m),
    encode := fun _ => [10, 11], sotToken := 49406, eotToken := 49407 }

/-- A concrete store record with two sentences. -/
def recU : RefRecord Unit :=
  { img := (), mask := (), seg_id := 5, num_sents := 2,
    sents := ["a tool", "the probe"] }

/-- A concrete store whose reserved entries give length 7 and two keys. -/
def storeU : LMDBStore Unit Unit :=
  { lenEntry := 7, keysEntry := [(), ()], getRecord := fun _ => some recU }

/-- A concrete filesystem mapping every directory to `storeU`. -/
def worldU : String → LMDBStore Unit Unit := fun _ => storeU

/-- A freshly constructed store-backed dataset state (train mode). -/
def sU : RefDatasetState Unit Unit :=
  { lmdb_dir := "db", mask_dir := "masks", dataset := "refcoco",
    split := "train", mode := "train", input_size := (50, 50),
    word_length := 17, length := 42404, env := none, keys := none }

/-- The same state after the store has been opened. -/
def sOpenU : RefDatasetState Unit Unit := initDB worldU sU

/-- C7 witness: the three parts of the lazy-initialisation theorem at the
concrete store `storeU`: construction for refcoco/train leaves the
handle unset with the static length 42404, a first access opens the
store and adopts its length 7 and keys, and an access on the opened
state changes nothing. -/
theorem refDataset_lazy_init_witness :
    (∃ s : RefDatasetState Unit Unit,
      refDatasetInit "db" "masks" "refcoco" "train" "train" 50 17 = .ok s ∧
        s.env = none ∧ s.keys = none ∧ s.length = 42404) ∧
    ((refGetItem extU worldU sU 0 0).1.env = some (worldU sU.lmdb_dir) ∧
     (refGetItem extU worldU sU 0 0).1.length = (worldU sU.lmdb_dir).lenEntry ∧
     (refGetItem extU worldU sU 0 0).1.keys
        = some (worldU sU.lmdb_dir).keysEntry) ∧
    (refGetItem extU worldU sOpenU 1 1).1 = sOpenU :=
  ⟨(@refDataset_lazy_init Unit Unit Unit Unit Unit Unit).1
      "db" "masks" "refcoco" "train" "train" 50 17 42404 (by decide),
   (@refDataset_lazy_init Unit Unit Unit Unit Unit Unit).2.1
      extU worldU sU 0 0 rfl,
   (@refDataset_lazy_init Unit Unit Unit Unit Unit Unit).2.2
      extU worldU sOpenU 1 1 storeU rfl⟩

/-- In val mode the record processing ignores the random draw
(`np.random.choice` is called on line 146 but its result is only used in
the train branch, line 167). -/
theorem refProcess_val_draws {B I M T U : Type} (ext : Ext B I M T U)
    (input_size : ℚ × ℚ) (word_length : Nat) (mask_dir : String)
    (ref : RefRecord B) (d1 d2 : Nat) :
    refProcess ext "val" input_size word_length mask_dir ref d1 =
      refProcess ext "val" input_size word_length mask_dir ref d2 := by
  simp [refProcess]

/-- The image and mask tensors of a train-mode item do not depend on the
random draw: they are fixed values determined by the record alone. -/
theorem refProcess_train_shape {B I M T U : Type} (ext : Ext B I M T U)
    (mode : String) (input_size : ℚ × ℚ) (word_length : Nat)
    (mask_dir : String) (ref : RefRecord B) :
    ∃ (ti : T) (tm : U), ∀ (d : Nat) (i : T) (w : List Nat) (m : U),
      refProcess ext mode input_size word_length mask_dir ref d =
        .ok (.train i w m) → i = ti ∧ m = tm := by
  refine ⟨ext.convertImg (ext.warpAffineCubicMean
      (ext.cvtColorBGR2RGB (ext.imdecodeColor ref.img))
      (getTransformMat input_size
        (ext.shape2 (ext.cvtColorBGR2RGB (ext.imdecodeColor ref.img))) true).1
      input_size),
    ext.convertMask (ext.maskDiv255 (ext.warpAffineLinearZero
      (ext.imdecodeGray ref.mask)
      (getTransformMat input_size
        (ext.shape2 (ext.cvtColorBGR2RGB (ext.imdecodeColor ref.img))) true).1
      input_size)), ?_⟩
  intro d i w m h
  simp only [refProcess] at h
  split at h
  · split at h
    · exact absurd h (by simp)
    · split at h
      · exact absurd h (by simp)
      · simp only [Except.ok.injEq, ItemOut.train.injEq] at h
        exact ⟨h.1.symm, h.2.2.symm⟩
  · split at h
    · split at h
      · exact absurd h (by simp)
      · split at h
        · exact absurd h (by simp)
        · exact absurd h (by simp)
    · exact absurd h (by simp)

/-- In train mode, with the record present, the tokenized sentence of the
returned item is the one at the uniform draw's index. -/
theorem refProcess_train_eval {B I M T U : Type} (ext : Ext B I M T U)
    (input_size : ℚ × ℚ) (word_length : Nat) (mask_dir : String)
    (ref : RefRecord B) (d : Nat) (sent : String) (w : List Nat)
    (hsent : ref.sents[d]? = some sent)
    (htok : tokenizeOne ext.encode ext.sotToken ext.eotToken word_length true
      sent = .ok w) :
    ∃ (i : T) (m : U),
      refProcess ext "train" input_size word_length mask_dir ref d =
        .ok (.train i w m) := by
  refine ⟨ext.convertImg (ext.warpAffineCubicMean
      (ext.cvtColorBGR2RGB (ext.imdecodeColor ref.img))
      (getTransformMat input_size
        (ext.shape2 (ext.cvtColorBGR2RGB (ext.imdecodeColor ref.img))) true).1
      input_size),
    ext.convertMask (ext.maskDiv255 (ext.warpAffineLinearZero
      (ext.imdecodeGray ref.mask)
      (getTransformMat input_size
        (ext.shape2 (ext.cvtColorBGR2RGB (ext.imdecodeColor ref.img))) true).1
      input_size)), ?_⟩
  simp only [refProcess, npRandomChoice]
  simp only [if_true]
  simp only [hsent, htok]

/-- In val mode, with the record present, the tokenized sentence of the
returned item is the record's first sentence. -/
theorem refProcess_val_eval {B I M T U : Type} (ext : Ext B I M T U)
    (input_size : ℚ × ℚ) (word_length : Nat) (mask_dir : String)
    (ref : RefRecord B) (d : Nat) (sent : String) (w : List Nat)
    (hsent : ref.sents[0]? = some sent)
    (htok : tokenizeOne ext.encode ext.sotToken ext.eotToken word_length true
      sent = .ok w) :
    ∃ (i : T) (p : ValParams),
      refProcess ext "val" input_size word_length mask_dir ref d =
        .ok (.val i w p) := by
  refine ⟨ext.convertImg (ext.warpAffineCubicMean
      (ext.cvtColorBGR2RGB (ext.imdecodeColor ref.img))
      (getTransformMat input_size
        (ext.shape2 (ext.cvtColorBGR2RGB (ext.imdecodeColor ref.img))) true).1
      input_size),
    { mask_path := pathJoin mask_dir (toString ref.seg_id ++ ".png")
      inverse := (getTransformMat input_size
        (ext.shape2 (ext.cvtColorBGR2RGB (ext.imdecodeColor ref.img))) true).2
      ori_size := ext.shape2 (ext.cvtColorBGR2RGB (ext.imdecodeColor ref.img)) },
    ?_⟩
  simp only [refProcess]
  rw [if_neg (by decide : ¬ ("val" : String) = "train")]
  simp only [if_true]
  simp only [hsent, htok]

/-- C8: one sentence is chosen per `__getitem__` access of the
store-backed dataset — the uniform draw's sentence in train mode, always
the first sentence in val mode — so that in val mode two accesses to the
same index yield identical output (for any two draws the whole result is
equal), while in train mode two accesses may differ only in the
tokenized sentence: the image and mask tensors are identical across
draws, and the word vector is the tokenization of the sentence at the
drawn index (respectively at index 0 in val mode). -/
theorem refDataset_sentence_modes {K B I M T U : Type} (ext : Ext B I M T U)
    (world : String → LMDBStore K B) (s : RefDatasetState K B) (index : Nat) :
    (s.mode = "val" → ∀ d1 d2 : Nat,
      refGetItem ext world s index d1 = refGetItem ext world s index d2) ∧
    (s.mode = "train" →
      ∀ (d1 d2 : Nat) (i1 i2 : T) (w1 w2 : List Nat) (m1 m2 : U),
      (refGetItem ext world s index d1).2 = .ok (.train i1 w1 m1) →
      (refGetItem ext world s index d2).2 = .ok (.train i2 w2 m2) →
      i1 = i2 ∧ m1 = m2) ∧
    (∀ (store : LMDBStore K B) (keys : List K) (key : K) (ref : RefRecord B)
        (d : Nat) (sent : String) (w : List Nat),
      s.mode = "train" → s.env = some store → s.keys = some keys →
      keys[index]? = some key → store.getRecord key = some ref →
      ref.sents[d]? = some sent →
      tokenizeOne ext.encode ext.sotToken ext.eotToken s.word_length true sent
        = .ok w →
      ∃ (i : T) (m : U),
        (refGetItem ext world s index d).2 = .ok (.train i w m)) ∧
    (∀ (store : LMDBStore K B) (keys : List K) (key : K) (ref : RefRecord B)
        (d : Nat) (sent : String) (w : List Nat),
      s.mode = "val" → s.env = some store → s.keys = some keys →
      keys[index]? = some key → store.getRecord key = some ref →
      ref.sents[0]? = some sent →
      tokenizeOne ext.encode ext.sotToken ext.eotToken s.word_length true sent
        = .ok w →
      ∃ (i : T) (p : ValParams),
        (refGetItem ext world s index d).2 = .ok (.val i w p)) := by
  refine ⟨?_, ?_, ?_, ?_⟩
  · intro hmode d1 d2
    have hmode2 : (if s.env.isNone then initDB world s else s).mode = "val" := by
      cases h : s.env.isNone <;> simp [h, initDB, hmode]
    simp only [refGetItem]
    set sp := if s.env.isNone then initDB world s else s with hsp
    refine congrArg (Prod.mk sp) ?_
    cases hk : sp.keys with
    | none => rfl
    | some keys =>
      dsimp only
      cases hi : keys[index]? with
      | none => rfl
      | some key =>
        dsimp only
        cases he : sp.env with
        | none => rfl
        | some store =>
          dsimp only
          cases hr : store.getRecord key with
          | none => rfl
          | some ref =>
            dsimp only
            rw [hmode2]
            exact refProcess_val_draws ext sp.input_size sp.word_length
              sp.mask_dir ref d1 d2
  · intro hmode d1 d2 i1 i2 w1 w2 m1 m2 h1 h2
    simp only [refGetItem] at h1 h2
    set sp := if s.env.isNone then initDB world s else s with hsp
    split at h1
    · simp at h1
    · rename_i keys hk
      simp only [hk] at h2
      split at h1
      · simp at h1
      · rename_i key hkey
        simp only [hkey] at h2
        split at h1
        · simp at h1
        · rename_i store hst
          simp only [hst] at h2
          split at h1
          · simp at h1
          · rename_i ref href
            simp only [href] at h2
            obtain ⟨ti, tm, hinv⟩ := refProcess_train_shape ext sp.mode
              sp.input_size sp.word_length sp.mask_dir ref
            obtain ⟨e1, e3⟩ := hinv d1 i1 w1 m1 h1
            obtain ⟨e2, e4⟩ := hinv d2 i2 w2 m2 h2
            exact ⟨e1.trans e2.symm, e3.trans e4.symm⟩
  · intro store keys key ref d sent w hmode henv hkeys hkey href hsent htok
    obtain ⟨i, m, hp⟩ := refProcess_train_eval ext s.input_size s.word_length
      s.mask_dir ref d sent w hsent htok
    refine ⟨i, m, ?_⟩
    simp only [refGetItem, henv, Option.isNone_some, Bool.false_eq_true,
      if_false, hkeys, hkey, href]
    rw [hmode]
    exact hp
  · intro store keys key ref d sent w hmode henv hkeys hkey href hsent htok
    obtain ⟨i, p, hp⟩ := refProcess_val_eval ext s.input_size s.word_length
      s.mask_dir ref d sent w hsent htok
    refine ⟨i, p, ?_⟩
    simp only [refGetItem, henv, Option.isNone_some, Bool.false_eq_true,
      if_false, hkeys, hkey, href]
    rw [hmode]
    exact hp

/-- The opened store-backed state in val mode. -/
def sValOpenU : RefDatasetState Unit Unit :=
  initDB worldU { sU with mode := "val" }

/-- C8 witness: at the concrete opened store, val-mode accesses with
draws 0 and 1 coincide; train-mode accesses with draws 0 and 1 share
image and mask; the train item at draw 1 carries the tokenization of
sentence 1 and the val item that of sentence 0 (both `[10, 11]` under the
constant encoder, hence the same padded row). -/
theorem refDataset_sentence_modes_witness :
    (refGetItem extU worldU sValOpenU 0 0
      = refGetItem extU worldU sValOpenU 0 1) ∧
    ((() : Unit) = () ∧ (() : Unit) = ()) ∧
    (∃ (i : Unit) (m : Unit), (refGetItem extU worldU sOpenU 0 1).2 =
      .ok (.train i [49406, 10, 11, 49407, 0, 0, 0, 0, 0, 0, 0, 0, 0, 0, 0,
        0, 0] m)) ∧
    (∃ (i : Unit) (p : ValParams), (refGetItem extU worldU sValOpenU 0 1).2 =
      .ok (.val i [49406, 10, 11, 49407, 0, 0, 0, 0, 0, 0, 0, 0, 0, 0, 0,
        0, 0] p)) := by
  refine ⟨(refDataset_sentence_modes extU worldU sValOpenU 0).1 rfl 0 1,
    (refDataset_sentence_modes extU worldU sOpenU 0).2.1 rfl 0 1 () ()
      [49406, 10, 11, 49407, 0, 0, 0, 0, 0, 0, 0, 0, 0, 0, 0, 0, 0]
      [49406, 10, 11, 49407, 0, 0, 0, 0, 0, 0, 0, 0, 0, 0, 0, 0, 0]
      () () ?_ ?_,
    (refDataset_sentence_modes extU worldU sOpenU 0).2.2.1 storeU [(), ()] ()
      recU 1 "the probe"
      [49406, 10, 11, 49407, 0, 0, 0, 0, 0, 0, 0, 0, 0, 0, 0, 0, 0]
      rfl rfl rfl rfl rfl rfl ?_,
    (refDataset_sentence_modes extU worldU sValOpenU 0).2.2.2 storeU [(), ()]
      () recU 1 "a tool"
      [49406, 10, 11, 49407, 0, 0, 0, 0, 0, 0, 0, 0, 0, 0, 0, 0, 0]
      rfl rfl rfl rfl rfl rfl ?_⟩ <;> rfl

/-- C9: for the store-backed dataset, any mode other than `train` and
`val` takes the test branch: `__getitem__` returns the pair of the
converted image tensor and the parameter bundle holding the original
(undecoded-colour-order) image, the record identifier `seg_id`, the mask
path derived from it, the inverse transform, the original size and all
sentences — and by the shape of the `.test` constructor no text tensor
and no mask tensor. -/
theorem refDataset_test_mode {K B I M T U : Type} (ext : Ext B I M T U)
    (world : String → LMDBStore K B) (s : RefDatasetState K B)
    (index draw : Nat) (store : LMDBStore K B) (keys : List K) (key : K)
    (ref : RefRecord B)
    (hm1 : s.mode ≠ "train") (hm2 : s.mode ≠ "val")
    (henv : s.env = some store) (hkeys : s.keys = some keys)
    (hkey : keys[index]? = some key) (href : store.getRecord key = some ref) :
    ∃ (i : T) (params : TestParams I),
      (refGetItem ext world s index draw).2 = .ok (.test i params) ∧
      i = ext.convertImg (ext.warpAffineCubicMean
            (ext.cvtColorBGR2RGB (ext.imdecodeColor ref.img))
            (getTransformMat s.input_size
              (ext.shape2 (ext.cvtColorBGR2RGB (ext.imdecodeColor ref.img)))
              true).1 s.input_size) ∧
      params.ori_img = ext.imdecodeColor ref.img ∧
      params.seg_id = ref.seg_id ∧
      params.mask_path = pathJoin s.mask_dir (toString ref.seg_id ++ ".png") ∧
      params.inverse = (getTransformMat s.input_size
          (ext.shape2 (ext.cvtColorBGR2RGB (ext.imdecodeColor ref.img)))
          true).2 ∧
      params.ori_size
          = ext.shape2 (ext.cvtColorBGR2RGB (ext.imdecodeColor ref.img)) ∧
      params.sents = ref.sents := by
  refine ⟨ext.convertImg (ext.warpAffineCubicMean
      (ext.cvtColorBGR2RGB (ext.imdecodeColor ref.img))
      (getTransformMat s.input_size
        (ext.shape2 (ext.cvtColorBGR2RGB (ext.imdecodeColor ref.img)))
        true).1 s.input_size),
    { ori_img := ext.imdecodeColor ref.img
      seg_id := ref.seg_id
      mask_path := pathJoin s.mask_dir (toString ref.seg_id ++ ".png")
      inverse := (getTransformMat s.input_size
        (ext.shape2 (ext.cvtColorBGR2RGB (ext.imdecodeColor ref.img)))
        true).2
      ori_size := ext.shape2 (ext.cvtColorBGR2RGB (ext.imdecodeColor ref.img))
      sents := ref.sents },
    ?_, rfl, rfl, rfl, rfl, rfl, rfl, rfl⟩
  simp only [refGetItem, henv, Option.isNone_some, Bool.false_eq_true,
    if_false, hkeys, hkey, href, refProcess]
  rw [if_neg hm1, if_neg hm2]

/-- The opened store-backed state in test mode. -/
def sTestOpenU : RefDatasetState Unit Unit :=
  initDB worldU { sU with mode := "test" }

/-- C9 witness: the test-mode item at the concrete opened store carries
exactly the bundle built from the record `recU` (identifier 5, mask path
`masks/5.png`, the two sentences). -/
theorem refDataset_test_mode_witness :
    ∃ (i : Unit) (params : TestParams Unit),
      (refGetItem extU worldU sTestOpenU 0 0).2 = .ok (.test i params) ∧
      i = extU.convertImg (extU.warpAffineCubicMean
            (extU.cvtColorBGR2RGB (extU.imdecodeColor recU.img))
            (getTransformMat sTestOpenU.input_size
              (extU.shape2 (extU.cvtColorBGR2RGB (extU.imdecodeColor recU.img)))
              true).1 sTestOpenU.input_size) ∧
      params.ori_img = extU.imdecodeColor recU.img ∧
      params.seg_id = recU.seg_id ∧
      params.mask_path
          = pathJoin sTestOpenU.mask_dir (toString recU.seg_id ++ ".png") ∧
      params.inverse = (getTransformMat sTestOpenU.input_size
          (extU.shape2 (extU.cvtColorBGR2RGB (extU.imdecodeColor recU.img)))
          true).2 ∧
      params.ori_size
          = extU.shape2 (extU.cvtColorBGR2RGB (extU.imdecodeColor recU.img)) ∧
      params.sents = recU.sents :=
  refDataset_test_mode extU worldU sTestOpenU 0 0 storeU [(), ()] () recU
    (by decide) (by decide) rfl rfl rfl rfl

/-! ## Claims about the manifest-backed dataset -/

/-- C6: the manifest-backed `__getitem__` selects the sentence index by
policy: `random` yields exactly the uniform draw from `[0, num_sents)`
(and every index below `num_sents` is reached by some draw), `first`
always yields 0, and any other policy value makes the selection — and
hence `__getitem__` itself, at access time — fail with the
`Not support sents_select_type` configuration error instead of
defaulting. -/
theorem endo_sents_select_policy (n draw : Nat) (hdraw : draw < n) :
    (selectSentIdx "random" n draw = .ok (npRandomChoice n draw) ∧
      npRandomChoice n draw < n) ∧
    (∀ k, k < n → selectSentIdx "random" n k = .ok k) ∧
    selectSentIdx "first" n draw = .ok 0 ∧
    (∀ ty, ty ≠ "random" → ty ≠ "first" →
      selectSentIdx ty n draw =
          .error ("Not support sents_select_type: " ++ ty) ∧
      ∀ {B I M T U : Type} (ext : Ext B I M T U) (ds : EndoDataset)
          (index : Nat) (ref : EndoRecord),
        ds.sents_select_type = ty → ds.data[index]? = some ref →
        endoGetItem ext ds index draw =
          .error ("Not support sents_select_type: " ++ ty)) := by
  refine ⟨⟨rfl, hdraw⟩, fun k _ => rfl, rfl, ?_⟩
  intro ty hr hf
  have hsel : ∀ m : Nat, selectSentIdx ty m draw =
      .error ("Not support sents_select_type: " ++ ty) := by
    intro m
    simp only [selectSentIdx]
    rw [if_neg hr, if_neg hf]
  refine ⟨hsel n, ?_⟩
  intro B I M T U ext ds index ref hty hdata
  simp only [endoGetItem, hdata, hty, hsel]

/-- A concrete manifest record with two sentences. -/
def endoRecU : EndoRecord :=
  { img_path := "img/1.png", mask_path := "mask/1.png", num_sents := 2,
    sents := ["grasper", "the grasper on the left"] }

/-- A manifest-backed dataset in val mode with an unrecognised
sentence-selection policy. -/
def endoValBogusU : EndoDataset :=
  endoDatasetInit "root" "data.json" [endoRecU] "val" 50 17 "bogus" false

/-- C6 witness: with two sentences, draw 1 is selected under `random`,
index 0 under `first`, and the policy `bogus` makes the concrete
`__getitem__` access fail with the configuration error. -/
theorem endo_sents_select_policy_witness :
    (selectSentIdx "random" 2 1 = .ok (npRandomChoice 2 1) ∧
      npRandomChoice 2 1 < 2) ∧
    selectSentIdx "first" 2 1 = .ok 0 ∧
    selectSentIdx "bogus" 2 1 =
      .error ("Not support sents_select_type: " ++ "bogus") ∧
    endoGetItem extU endoValBogusU 0 1 =
      .error ("Not support sents_select_type: " ++ "bogus") := by
  have h := endo_sents_select_policy 2 1 (by decide)
  have h4 := h.2.2.2 "bogus" (by decide) (by decide)
  exact ⟨h.1, h.2.2.1, h4.1, h4.2 extU endoValBogusU 0 endoRecU rfl rfl⟩

/-- C10 counterexample: in val mode the manifest-backed `__getitem__`
does not ignore the sentence-selection policy — with the policy `bogus`
the access raises the configuration error instead of tokenizing the
first sentence, because the selection (lines 313-320) runs before the
mode branch.  So the policy does not affect only train mode. -/
theorem endo_val_policy_counterexample :
    endoGetItem extU endoValBogusU 0 0 =
      .error ("Not support sents_select_type: " ++ "bogus") ∧
    (endoGetItem extU endoValBogusU 0 0).isOk = false :=
  ⟨rfl, rfl⟩

/-- C10 (amended): for the manifest-backed dataset in val mode under a
recognised policy (`random` or `first`), `__getitem__` is independent of
the random draw and, whenever it returns a val item, its word vector is
the tokenization of the record's first sentence; an unrecognised policy
fails even in val mode (see the counterexample). -/
theorem endoDataset_val_first_sentence {B I M T U : Type}
    (ext : Ext B I M T U) (ds : EndoDataset) (index : Nat)
    (hmode : ds.mode = "val")
    (hty : ds.sents_select_type = "random" ∨ ds.sents_select_type = "first") :
    (∀ d1 d2 : Nat, endoGetItem ext ds index d1 = endoGetItem ext ds index d2) ∧
    (∀ (d : Nat) (i : T) (w : List Nat) (p : ValParams) (ref : EndoRecord),
      ds.data[index]? = some ref →
      endoGetItem ext ds index d = .ok (.val i w p) →
      ∃ sent, ref.sents[0]? = some sent ∧
        tokenizeOne ext.encode ext.sotToken ext.eotToken ds.word_length true
          sent = .ok w) := by
  constructor
  · intro d1 d2
    cases hdata : ds.data[index]? with
    | none => simp [endoGetItem, hdata]
    | some ref =>
      rcases hty with hty | hty <;>
        simp [endoGetItem, hdata, hty, hmode, selectSentIdx, npRandomChoice]
  · intro d i w p ref hdata hok
    have hok2 : (match ref.sents[0]? with
        | none =>
          (.error "IndexError: list index out of range" :
            Except String (ItemOut I T U))
        | some sent =>
          match tokenizeOne ext.encode ext.sotToken ext.eotToken
              ds.word_length true sent with
          | .error e => .error e
          | .ok word_vec =>
            .ok (.val (ext.convertImg (ext.warpAffineCubicMean
                (ext.cvtColorBGR2RGB
                  (ext.imreadColor (pathJoin ds.data_root ref.img_path)))
                (getTransformMat ds.input_size
                  (ext.shape2 (ext.cvtColorBGR2RGB
                    (ext.imreadColor (pathJoin ds.data_root ref.img_path))))
                  true).1 ds.input_size))
              word_vec
              { mask_path := pathJoin ds.data_root ref.mask_path
                inverse := (getTransformMat ds.input_size
                  (ext.shape2 (ext.cvtColorBGR2RGB
                    (ext.imreadColor (pathJoin ds.data_root ref.img_path))))
                  true).2
                ori_size := ext.shape2 (ext.cvtColorBGR2RGB
                  (ext.imreadColor (pathJoin ds.data_root ref.img_path))) }))
        = .ok (.val i w p) := by
      rw [← hok]
      rcases hty with hty | hty <;>
        simp [endoGetItem, hdata, hty, hmode, selectSentIdx, npRandomChoice]
    split at hok2
    · exact absurd hok2 (by simp)
    · rename_i sent hsent
      split at hok2
      · exact absurd hok2 (by simp)
      · rename_i wv htok
        simp only [Except.ok.injEq, ItemOut.val.injEq] at hok2
        exact ⟨sent, hsent, hok2.2.1 ▸ htok⟩

/-- A manifest-backed dataset in val mode with the `first` policy. -/
def endoValFirstU : EndoDataset :=
  endoDatasetInit "root" "data.json" [endoRecU] "val" 50 17 "first" false

/-- C10 witness: on the concrete val-mode dataset with the `first`
policy, accesses with draws 0 and 1 coincide, and the returned word
vector is the tokenization of the first sentence `grasper`. -/
theorem endoDataset_val_first_sentence_witness :
    endoGetItem extU endoValFirstU 0 0 = endoGetItem extU endoValFirstU 0 1 :=
  (endoDataset_val_first_sentence extU endoValFirstU 0 rfl (Or.inr rfl)).1 0 1

end CRIS4MIS
